import Mathlib

/-!
Verification of the `movinfo` repository against its specification.

The program (Go) has two parts under scrutiny:
  * a drop-frame-aware SMPTE timecode codec (`NewTimecode`, `Add`, `String`),
  * an ffprobe-report extractor (`parse`) feeding a result assembler.

We shallow-embed the Go source.  Go strings are modelled as `List Char`
(the program only manipulates ASCII bytes on every path the claims touch);
Go `int` is modelled as unbounded `Int` — Go ints are 64-bit and every
concrete input considered here stays far below the overflow range — with
Go's truncated division/remainder modelled by `Int.tdiv` / `Int.tmod`.
Fallible Go code (`value, err := ...`) returns `Except`/`Option`, and the
one Go runtime fault reachable in `parse` (an out-of-range slice index) is
modelled by an explicit `panic`-like constructor.
-/

namespace Movinfo

/-- Go strings, as lists of characters. -/
abbrev Str := List Char

/-- Go `a / b` on `int`: truncated (toward zero) division.
Division by zero panics in Go; it is unreachable in this program
(all divisors are the nonzero literals 17982, 1798, 60, 24 and the
timecode base, which the constructor restricts to 24 or 30). -/
def godiv (a b : Int) : Int := Int.tdiv a b

/-- Go `a % b` on `int`: remainder with the sign of the dividend. -/
def gomod (a b : Int) : Int := Int.tmod a b

/-- Does `s` start with `p`?  Models Go `strings.HasPrefix p s`. -/
def startsWith : Str → Str → Bool
  | [], _ => true
  | _ :: _, [] => false
  | c :: p, d :: s => c == d && startsWith p s

/-- Go `strings.TrimPrefix`: drop `p` from the front of `s` when present. -/
def trimLead (p s : Str) : Str :=
  if startsWith p s then s.drop p.length else s

/-- Go `strings.Split(s, sep)` for a one-character separator. -/
def splitChar (c : Char) : Str → List Str
  | [] => [[]]
  | d :: s =>
    if d == c then [] :: splitChar c s
    else
      match splitChar c s with
      | [] => [[d]]
      | t :: ts => (d :: t) :: ts

/-- The whitespace characters recognised by Go's `unicode.IsSpace` that can
occur in the byte-oriented inputs of this program (ASCII plus the two
Latin-1 space characters). -/
def isSpaceGo (c : Char) : Bool :=
  c == ' ' || c == '\t' || c == '\n' || c == '\x0b' || c == '\x0c' ||
  c == '\r' || c == '\x85' || c == '\xa0'

/-- Go `strings.TrimSpace`: strip whitespace from both ends. -/
def trimSpace (s : Str) : Str :=
  ((s.dropWhile (fun c => isSpaceGo c)).reverse.dropWhile
    (fun c => isSpaceGo c)).reverse

/-- Split at every character satisfying `p`, keeping empty pieces. -/
def splitWhen (p : Char → Bool) : Str → List Str
  | [] => [[]]
  | d :: s =>
    if p d then [] :: splitWhen p s
    else
      match splitWhen p s with
      | [] => [[d]]
      | t :: ts => (d :: t) :: ts

/-- Go `strings.Fields`: the maximal runs of non-whitespace characters. -/
def fields (s : Str) : List Str :=
  (splitWhen (fun c => isSpaceGo c) s).filter (fun w => !w.isEmpty)

/-- Byte index of the first occurrence of `pat` in `s`
(Go `strings.Index`), as an `Option` instead of Go's `-1`. -/
def indexOf (pat : Str) : Str → Option Nat
  | [] => if startsWith pat [] then some 0 else none
  | c :: t =>
    if startsWith pat (c :: t) then some 0
    else (indexOf pat t).map (· + 1)

/-- Go `strings.SplitAfter(s, sep)`: split after each (leftmost,
non-overlapping) occurrence of `sep`, keeping `sep` with the piece before
it.  `cur` holds the current piece in reverse; a piece is closed as soon
as it ends with `sep`.  (For the empty separator Go instead splits after
every rune; the program only ever calls this with the literal
`"[/STREAM]"`, so that corner is irrelevant here.) -/
def splitAfterAux (sep : Str) (cur : Str) : Str → List Str
  | [] => [cur.reverse]
  | c :: rest =>
    if startsWith sep.reverse (c :: cur) then
      (c :: cur).reverse :: splitAfterAux sep [] rest
    else
      splitAfterAux sep (c :: cur) rest

/-- Go `strings.SplitAfter(s, sep)`. -/
def splitAfter (sep s : Str) : List Str := splitAfterAux sep [] s

/-- `code[a:b]` — a Go string slice. -/
def slice (s : Str) (a b : Nat) : Str := (s.drop a).take (b - a)

/-- Decimal value of a digit character. -/
def digitVal (c : Char) : Nat := c.toNat - 48

/-- Is `c` an ASCII decimal digit? -/
def isDigitGo (c : Char) : Bool := 48 ≤ c.toNat && c.toNat ≤ 57

/-- Accumulate the decimal value of a digit string;
fails on the first non-digit. -/
def digitsValAux : Str → Nat → Option Nat
  | [], acc => some acc
  | c :: r, acc =>
    if isDigitGo c then digitsValAux r (acc * 10 + digitVal c) else none

/-- Decimal value of a nonempty all-digit string, `none` otherwise. -/
def digitsVal : Str → Option Nat
  | [] => none
  | c :: r => digitsValAux (c :: r) 0

/-- Largest Go `int` (64-bit). -/
def maxInt64 : Nat := 9223372036854775807

/-- Go `strconv.Atoi`: optional sign, then at least one ASCII digit,
value within the 64-bit `int` range.  (On error Go also returns a dummy
value alongside the error; callers in this program only look at the
error, so `Option` is an exact model.) -/
def atoi (s : Str) : Option Int :=
  match s with
  | '+' :: t =>
    match digitsVal t with
    | some n => if n ≤ maxInt64 then some (n : Int) else none
    | none => none
  | '-' :: t =>
    match digitsVal t with
    | some n => if n ≤ maxInt64 + 1 then some (-(n : Int)) else none
    | none => none
  | t =>
    match digitsVal t with
    | some n => if n ≤ maxInt64 then some (n : Int) else none
    | none => none

/-- The character of a decimal digit. -/
def digitChar (n : Nat) : Char := Char.ofNat (48 + n)

/-- Decimal digits of a natural number, most significant first
(fuel-driven so that it reduces definitionally). -/
def natDigitsAux : Nat → Nat → Str
  | 0, _ => []
  | fuel + 1, n =>
    if n < 10 then [digitChar n]
    else natDigitsAux fuel (n / 10) ++ [digitChar (n % 10)]

/-- Go `strconv.Itoa`. -/
def itoa (n : Int) : Str :=
  if n < 0 then '-' :: natDigitsAux (n.natAbs + 1) n.natAbs
  else natDigitsAux (n.toNat + 1) n.toNat

/-- Zero-pad `strconv.Itoa n` to two characters, as the `String` method of
the timecode does for each field. -/
def pad2 (n : Int) : Str :=
  let tc := itoa n
  if tc.length = 1 then '0' :: tc else tc

/-- The errors `parse` and the codec can produce; one constructor per
`fmt.Errorf` site, carrying the same contextual payload. -/
inductive GoErr where
  | cannotFindStream : GoErr
  | unexpectedStreamLine : GoErr
  | notFoundVideoStream : GoErr
  | unmatchedVideoStream : GoErr
  | invalidFrames (l : Str) : GoErr
  | invalidTimecodeTag (l : Str) : GoErr
  | missingTimecode : GoErr
  | missingFps : GoErr
  | missingNbFrames : GoErr
  | unsupportedFps (fps : Str) : GoErr
  | unknownBase (base : Int) : GoErr
  | invalidTimecode (code : Str) : GoErr
  | missingWidth : GoErr
  | missingHeight : GoErr
deriving DecidableEq

/-- The `Timecode` struct: base frame rate (24 or 30), drop-frame flag,
and the absolute frame count in the non-drop timeline. -/
structure Timecode where
  base : Int
  drop : Bool
  frame : Int
deriving DecidableEq

/-- `NewTimecode` — the codec constructor.  The Go loop
`for i := 0; i < len(code); i += 3` visits `i = 0, 3, 6, 9` (the length is
known to be 11 at that point) and `Atoi`s `code[i:i+2]`; each failure
produces the same error, so the four group reads are written out. -/
def NewTimecode (code : Str) (base : Int) (drop : Bool) :
    Except GoErr Timecode :=
  if base ≠ 24 ∧ base ≠ 30 then .error (.unknownBase base)
  else
    -- 23.98, 23.978 isn't a drop timecode system.
    let drop := if base = 24 ∧ drop then false else drop
    if code.length ≠ 11 then .error (.invalidTimecode code)
    else
      match atoi (slice code 0 2), atoi (slice code 3 5),
          atoi (slice code 6 8), atoi (slice code 9 11) with
      | some h, some m, some s, some f =>
        let frame := 3600 * h * base + 60 * m * base + s * base + f
        let frame :=
          if drop then
            -- assume it is base 30
            let totalMinutes := 60 * h + m
            frame - 2 * (totalMinutes - godiv totalMinutes 10)
          else frame
        .ok { base := base, drop := drop, frame := frame }
      | _, _, _, _ => .error (.invalidTimecode code)

/-- The `Add` method: add `n` frames. -/
def Timecode.Add (t : Timecode) (n : Int) : Timecode :=
  { t with frame := t.frame + n }

/-- The `String` method of `Timecode` (named `toStr` here because `String`
is taken in Lean).  The Go loop emits `":"` before fields 1 and 2 and the
drop-dependent separator before field 3, i.e. the concatenation below. -/
def Timecode.toStr (t : Timecode) : Str :=
  let base := t.base
  let frame := t.frame
  let frame :=
    if t.drop then
      -- assume it is base 30
      let D := godiv frame 17982  -- number of full 10 minutes chunks
      let M := gomod frame 17982  -- remainder frames
      let d := godiv (M - 2) 1798 -- number of 1 minute chunks that drop
      frame + 18 * D + 2 * d
    else frame
  let h := gomod (godiv (godiv (godiv frame base) 60) 60) 24
  let m := gomod (godiv (godiv frame base) 60) 60
  let s := gomod (godiv frame base) 60
  let f := gomod frame base
  pad2 h ++ [':'] ++ pad2 m ++ [':'] ++ pad2 s ++
    (if t.drop then [';'] else [':']) ++ pad2 f

/-- Outcome of a piece of Go code that can return a value, return an
error, or abort with a runtime fault (index out of range). -/
inductive POut (α : Type) where
  | ok (a : α)
  | err (e : GoErr)
  | panic
deriving DecidableEq

/-- Index of the first overview token equal to `fps` or `fps,`. -/
def findFpsIdx : List Str → Option Nat
  | [] => none
  | w :: ws =>
    if w = "fps".data ∨ w = "fps,".data then some 0
    else (findFpsIdx ws).map (· + 1)

/-- One iteration of the overview loop of `parse` (source lines 196–225).
State: the captured `fps` string and `videoIdx` (initially `""` / `-1`).
`flds[2]` is read without a length check in the source; a line such as
`Stream #0:` therefore faults at runtime, modelled by `.panic`. -/
def ovStep (st : Str × Int) (l0 : Str) : POut (Str × Int) :=
  let l := trimSpace l0
  if startsWith ("Stream #0:".data) l ∧ st.1 = [] then
    let flds := fields l
    match flds.get? 2 with
    | none => .panic
    | some f2 =>
      if f2 ≠ "Video:".data then .ok st
      else
        let rest := trimLead ("Stream #0:".data) l
        if rest.length = 0 then .err .unexpectedStreamLine
        else
          let n := rest.takeWhile (fun c => isDigitGo c)
          match atoi n with
          | none => .err .unexpectedStreamLine
          | some vi =>
            match findFpsIdx flds with
            | none => .ok (st.1, vi)
            | some i =>
              if i = 0 then .panic  -- Go flds[-1]; unreachable: flds[0] is Stream
              else
                match flds.get? (i - 1) with
                | none => .panic
                | some w => .ok (w, vi)
  else .ok st

/-- The overview loop: fold `ovStep` over the lines, stopping at the
first error or fault. -/
def ovScan : List Str → Str × Int → POut (Str × Int)
  | [], st => .ok st
  | l :: ls, st =>
    match ovStep st l with
    | .ok st' => ovScan ls st'
    | .err e => .err e
    | .panic => .panic

/-- The mutable locals of the video-block scan of `parse`
(source lines 233–240), zero-valued as in Go. -/
structure BlockState where
  frames : Int := 0
  width : Str := []
  height : Str := []
  timecode : Str := []
  codec : Str := []
  codec_profile : Str := []
  pix_fmt : Str := []
  colorspace : Str := []
deriving DecidableEq

/-- `nb_frames=` handling (source lines 246–251). -/
def scanNbFrames (l : Str) (st : BlockState) : Except GoErr BlockState :=
  if startsWith ("nb_frames=".data) l ∧ st.frames = 0 then
    match atoi (trimLead ("nb_frames=".data) l) with
    | none => .error (.invalidFrames l)
    | some n => .ok { st with frames := n }
  else .ok st

/-- `width=` handling (source lines 252–254). -/
def scanWidth (l : Str) (st : BlockState) : Except GoErr BlockState :=
  if startsWith ("width=".data) l ∧ st.width = [] then
    .ok { st with width := trimLead ("width=".data) l }
  else .ok st

/-- `height=` handling (source lines 255–257). -/
def scanHeight (l : Str) (st : BlockState) : Except GoErr BlockState :=
  if startsWith ("height=".data) l ∧ st.height = [] then
    .ok { st with height := trimLead ("height=".data) l }
  else .ok st

/-- `codec_name=` handling (source lines 258–260). -/
def scanCodecName (l : Str) (st : BlockState) : Except GoErr BlockState :=
  if startsWith ("codec_name=".data) l ∧ st.codec = [] then
    .ok { st with codec := trimLead ("codec_name=".data) l }
  else .ok st

/-- `profile=` handling (source lines 261–263). -/
def scanCodecProfile (l : Str) (st : BlockState) : Except GoErr BlockState :=
  if startsWith ("profile=".data) l ∧ st.codec_profile = [] then
    .ok { st with codec_profile := trimLead ("profile=".data) l }
  else .ok st

/-- `pix_fmt=` handling (source lines 264–266). -/
def scanPixFmt (l : Str) (st : BlockState) : Except GoErr BlockState :=
  if startsWith ("pix_fmt=".data) l ∧ st.pix_fmt = [] then
    .ok { st with pix_fmt := trimLead ("pix_fmt=".data) l }
  else .ok st

/-- `color_space=` handling (source lines 267–269). -/
def scanColorSpace (l : Str) (st : BlockState) : Except GoErr BlockState :=
  if startsWith ("color_space=".data) l ∧ st.colorspace = [] then
    .ok { st with colorspace := trimLead ("color_space=".data) l }
  else .ok st

/-- `TAG:timecode=` handling (source lines 270–275).  Note: unlike the
seven fields above there is no first-seen guard — each occurrence
overwrites `timecode`. -/
def scanTimecodeTag (l : Str) (st : BlockState) : Except GoErr BlockState :=
  if startsWith ("TAG:timecode=".data) l then
    let tc := trimLead ("TAG:timecode=".data) l
    if tc.length ≠ 11 then .error (.invalidTimecodeTag l)
    else .ok { st with timecode := tc }
  else .ok st

/-- One line of the video-block scan: the eight key checks in source
order (each `if` in the Go body runs in sequence on the same line). -/
def blockLine (l : Str) (st : BlockState) : Except GoErr BlockState :=
  scanNbFrames l st >>= scanWidth l >>= scanHeight l >>= scanCodecName l
    >>= scanCodecProfile l >>= scanPixFmt l >>= scanColorSpace l
    >>= scanTimecodeTag l

/-- The video-block loop (source lines 242–276): before each line the
loop breaks once `fps`, `timecode` and `frames` are all
non-empty/non-zero. -/
def blockScan (fps : Str) : List Str → BlockState → Except GoErr BlockState
  | [], st => .ok st
  | l :: ls, st =>
    if fps ≠ [] ∧ st.timecode ≠ [] ∧ st.frames ≠ 0 then .ok st
    else
      match blockLine l st with
      | .error e => .error e
      | .ok st' => blockScan fps ls st'

/-- Everything of `parse` before the field assembly (source lines
188–276): locate `[STREAM]`, scan the overview for the video stream's
index and fps, select the video block, scan it. -/
def pipeline (data : Str) : POut (Str × BlockState) :=
  match indexOf ("[STREAM]".data) data with
  | none => .err .cannotFindStream
  | some idx =>
    let overview := data.take idx
    let streamData := data.drop idx
    match ovScan (splitChar '\n' overview) ([], -1) with
    | .err e => .err e
    | .panic => .panic
    | .ok (fps, videoIdx) =>
      if videoIdx = -1 then .err .notFoundVideoStream
      else
        let streams := splitAfter ("[/STREAM]".data) streamData
        if (streams.length : Int) ≤ videoIdx then .err .unmatchedVideoStream
        else if videoIdx < 0 then .panic  -- Go streams[negative]; unreachable
        else
          match streams.get? videoIdx.toNat with
          | none => .panic
          | some videoStream =>
            match blockScan fps (splitChar '\n' videoStream) {} with
            | .error e => .err e
            | .ok bs => .ok (fps, bs)

/-- The requested output fields (the Go `config` struct; `end` is a Lean
keyword, hence `end_`). -/
structure config where
  start : Bool := false
  end_ : Bool := false
  duration : Bool := false
  fps : Bool := false
  resolution : Bool := false
  codec : Bool := false
  colorspace : Bool := false
deriving DecidableEq

/-- The Go `result` struct: one string per field, zero-valued. -/
structure result where
  start : Str := []
  end_ : Str := []
  duration : Str := []
  fps : Str := []
  resolution : Str := []
  codec : Str := []
  colorspace : Str := []
deriving DecidableEq

/-- ASCII model of Go `strings.ToLower` (codec names are ASCII). -/
def toLowerGo (s : Str) : Str :=
  s.map fun c =>
    if 'A' ≤ c ∧ c ≤ 'Z' then Char.ofNat (c.toNat + 32) else c

/-- Is `c` an ASCII letter? -/
def isLetterAscii (c : Char) : Bool :=
  ('A' ≤ c && c ≤ 'Z') || ('a' ≤ c && c ≤ 'z')

/-- ASCII model of Go `strings.Title`: upper-case every letter that does
not follow a letter.  The flag records whether the previous character was
a letter. -/
def titleGoAux : Str → Bool → Str
  | [], _ => []
  | c :: r, prevLetter =>
    if !prevLetter && isLetterAscii c then
      (if 'a' ≤ c ∧ c ≤ 'z' then Char.ofNat (c.toNat - 32) else c) ::
        titleGoAux r true
    else c :: titleGoAux r (isLetterAscii c)

/-- Go `strings.Title`. -/
def titleGo (s : Str) : Str := titleGoAux s false

/-- Assembly of `colorspace` (source lines 333–335) and the final
successful return. -/
def asmColorspace (cfg : config) (bs : BlockState) (res : result) :
    result × Option GoErr :=
  (if cfg.colorspace then { res with colorspace := bs.colorspace } else res,
    none)

/-- Assembly of `codec` (source lines 330–332). -/
def asmCodec (cfg : config) (bs : BlockState) (res : result) :
    result × Option GoErr :=
  asmColorspace cfg bs
    (if cfg.codec then
      { res with codec :=
          titleGo (toLowerGo bs.codec) ++ " ".data ++ bs.codec_profile ++
            " / ".data ++ bs.pix_fmt }
    else res)

/-- Assembly of `resolution` (source lines 321–329). -/
def asmResolution (cfg : config) (bs : BlockState) (res : result) :
    result × Option GoErr :=
  if cfg.resolution ∧ bs.width = [] then (res, some .missingWidth)
  else if cfg.resolution ∧ bs.height = [] then (res, some .missingHeight)
  else
    asmCodec cfg bs
      (if cfg.resolution then
        { res with resolution := bs.width ++ "*".data ++ bs.height }
      else res)

/-- Assembly of `fps` (source lines 318–320): never fails. -/
def asmFps (cfg : config) (fps : Str) (bs : BlockState) (res : result) :
    result × Option GoErr :=
  asmResolution cfg bs (if cfg.fps then { res with fps := fps } else res)

/-- Assembly of `duration` (source lines 312–317). -/
def asmDuration (cfg : config) (fps : Str) (bs : BlockState)
    (res : result) : result × Option GoErr :=
  if cfg.duration ∧ bs.frames = 0 then (res, some .missingNbFrames)
  else
    asmFps cfg fps bs
      (if cfg.duration then { res with duration := itoa bs.frames } else res)

/-- The timecode base derived from the fps string (source lines
296–299): 30 for `30` and `29.97`, else 24. -/
def baseOf (fps : Str) : Int :=
  if fps = "30".data ∨ fps = "29.97".data then 30 else 24

/-- The drop flag derived from the fps string (source lines 300–304):
true exactly for `29.97` (contrary to our intuition 23.98 / 23.976 isn't
a drop frame system). -/
def dropOf (fps : Str) : Bool := fps == "29.97".data

/-- Assembly of `end` (source lines 283–311): requires the timecode tag,
fps and a nonzero frame count, a supported fps, and a parseable timecode;
`base`/`drop` are derived from the fps string. -/
def asmEnd (cfg : config) (fps : Str) (bs : BlockState) (res : result) :
    result × Option GoErr :=
  if cfg.end_ ∧ bs.timecode = [] then (res, some .missingTimecode)
  else if cfg.end_ ∧ fps = [] then (res, some .missingFps)
  else if cfg.end_ ∧ bs.frames = 0 then (res, some .missingNbFrames)
  else if cfg.end_ ∧ fps ≠ "30".data ∧ fps ≠ "29.97".data ∧
      fps ≠ "24".data ∧ fps ≠ "23.98".data ∧ fps ≠ "23.976".data then
    (res, some (.unsupportedFps fps))
  else if cfg.end_ then
    match NewTimecode bs.timecode (baseOf fps) (dropOf fps) with
    | .error e => (res, some e)
    | .ok tc =>
      asmDuration cfg fps bs
        { res with end_ := (Timecode.Add tc (bs.frames - 1)).toStr }
  else asmDuration cfg fps bs res

/-- Assembly of `start` (source lines 277–282) and entry point of the
whole field assembly. -/
def asmStart (cfg : config) (fps : Str) (bs : BlockState) (res : result) :
    result × Option GoErr :=
  if cfg.start ∧ bs.timecode = [] then (res, some .missingTimecode)
  else
    asmEnd cfg fps bs
      (if cfg.start then { res with start := bs.timecode } else res)

/-- The outcome of Go `parse`: a `(result, error)` pair, or a runtime
fault. -/
inductive ParseOut where
  | ret (res : result) (err : Option GoErr)
  | panic
deriving DecidableEq

/-- Go `parse` (source lines 187–337): the extraction pipeline followed by
the field assembly.  Pipeline errors return the zero-valued `result`, as
the Go named return value is still untouched there. -/
def parse (data : Str) (cfg : config) : ParseOut :=
  match pipeline data with
  | .panic => .panic
  | .err e => .ret {} (some e)
  | .ok (fps, bs) =>
    let (res, oe) := asmStart cfg fps bs {}
    .ret res oe

example :
    NewTimecode ("00:00:00:00".data) 30 true =
      .ok { base := 30, drop := true, frame := 0 } := by rfl

example :
    Timecode.toStr { base := 30, drop := true, frame := 101 } =
      "00:00:03;11".data := by rfl

example :
    Timecode.toStr { base := 24, drop := false, frame := 101 } =
      "00:00:04:05".data := by rfl

/-- A report shaped like the repository's test fixtures: one video
stream, fps token `29.97`, `nb_frames=102`, 1920×1080, timecode zero. -/
def reportA : Str :=
  ("Stream #0:0(eng): Video: h264, yuv420p, 1920x1080, 29.97 fps, 2997 tbn\n" ++
   "[STREAM]\nwidth=1920\nheight=1080\nnb_frames=102\n" ++
   "TAG:timecode=00:00:00:00\n[/STREAM]\n").data

example :
    parse reportA
      { start := true, end_ := true, duration := true, resolution := true } =
    .ret
      { start := "00:00:00:00".data, end_ := "00:00:03;11".data,
        duration := "102".data, resolution := "1920*1080".data }
      none := by rfl

/-- C10: for every Timecode produced by `NewTimecode`, and preserved by
every subsequent `Add` call, `drop = true` implies `base = 30`; in
particular base 24 with `drop = true` succeeds with drop silently coerced
to `false`. -/
theorem c10_drop_implies_base30 :
    ∀ (code : Str) (base : Int) (drop : Bool) (t : Timecode),
      NewTimecode code base drop = .ok t →
      (t.drop = true → t.base = 30) ∧
      (∀ n : Int, (t.Add n).drop = t.drop ∧ (t.Add n).base = t.base) ∧
      (base = 24 → drop = true → t.drop = false) := by
  intro code base drop t h
  unfold NewTimecode at h
  split at h
  · simp at h
  next hbase =>
  split at h
  next hco =>
    split at h
    · simp at h
    · split at h
      · simp only [Except.ok.injEq] at h
        subst h
        refine ⟨?_, fun n => ⟨rfl, rfl⟩, fun _ _ => rfl⟩
        intro hd
        simp at hd
      · simp at h
  next hco =>
    split at h
    · simp at h
    · split at h
      · simp only [Except.ok.injEq] at h
        subst h
        refine ⟨?_, fun n => ⟨rfl, rfl⟩, ?_⟩
        · intro hd
          simp only at hd ⊢
          rcases Classical.em (base = 24) with h24 | h24
          · exact absurd ⟨h24, hd⟩ hco
          · rcases Classical.em (base = 30) with h30 | h30
            · exact h30
            · exact absurd ⟨h24, h30⟩ hbase
        · intro h24 hd
          exact absurd ⟨h24, hd⟩ hco
      · simp at h

/-- C10 witness: `NewTimecode "00:00:00:00" 24 true` coerces drop. -/
theorem c10_witness :
    ((({ base := 24, drop := false, frame := 0 } : Timecode).drop = true →
        ({ base := 24, drop := false, frame := 0 } : Timecode).base = 30) ∧
      (∀ n : Int,
        (({ base := 24, drop := false, frame := 0 } : Timecode).Add n).drop =
          ({ base := 24, drop := false, frame := 0 } : Timecode).drop ∧
        (({ base := 24, drop := false, frame := 0 } : Timecode).Add n).base =
          ({ base := 24, drop := false, frame := 0 } : Timecode).base) ∧
      ((24 : Int) = 24 → true = true →
        ({ base := 24, drop := false, frame := 0 } : Timecode).drop = false)) :=
  c10_drop_implies_base30 ("00:00:00:00".data) 24 true
    { base := 24, drop := false, frame := 0 } (by rfl)

/-- C5: the extractor is NOT total — on a report whose overview contains
a line beginning with `Stream #0:` that has fewer than three
whitespace-delimited tokens, the unguarded `flds[2]` access faults at
runtime instead of returning a result or an error. -/
theorem c5_parse_panics_on_short_stream_line :
    parse ("Stream #0:\n[STREAM]".data) { start := true } = .panic := by rfl

/-- A report whose video block satisfies the early-exit condition
(timecode, nb_frames; fps comes from the overview) before its `width=`
and `height=` lines. -/
def reportC7 : Str :=
  ("Stream #0:0(eng): Video: h264, 1920x1080, 29.97 fps\n" ++
   "[STREAM]\nTAG:timecode=00:00:00:00\nnb_frames=5\n" ++
   "width=1920\nheight=1080\n[/STREAM]\n").data

/-- C7: the block scan stops once fps, timecode and nb_frames are all
non-empty/non-zero, and consequently there is a report whose block
contains `width=`/`height=` lines after that point on which `parse` with
resolution requested fails with the missing-width error. -/
theorem c7_early_exit_drops_late_fields :
    (∀ (fps : Str) (ls : List Str) (st : BlockState),
        fps ≠ [] → st.timecode ≠ [] → st.frames ≠ 0 →
        blockScan fps ls st = .ok st) ∧
    parse reportC7 { resolution := true } = .ret {} (some .missingWidth) ∧
    ((splitChar '\n' reportC7).any fun l =>
      startsWith ("width=".data) l) = true ∧
    ((splitChar '\n' reportC7).any fun l =>
      startsWith ("height=".data) l) = true := by
  refine ⟨?_, by rfl, by rfl, by rfl⟩
  intro fps ls st h1 h2 h3
  cases ls with
  | nil => rfl
  | cons l ls => simp only [blockScan, if_pos (And.intro h1 (And.intro h2 h3))]

/-- C7 witness: a satisfied early-exit condition freezes the state. -/
theorem c7_witness :
    blockScan ("29.97".data) [("width=1920".data)]
      { frames := 5, timecode := "00:00:00:00".data } =
    .ok { frames := 5, timecode := "00:00:00:00".data } :=
  c7_early_exit_drops_late_fields.1 ("29.97".data) [("width=1920".data)]
    { frames := 5, timecode := "00:00:00:00".data }
    (by decide) (by decide) (by decide)

/-- Computation rule for `>>=` on `Except` at an `ok` value. -/
theorem okBind {ε α β : Type} (a : α) (f : α → Except ε β) :
    (Except.ok a : Except ε α) >>= f = f a := rfl

/-- Computation rule for `>>=` on `Except` at an `error` value. -/
theorem errBind {ε α β : Type} (e : ε) (f : α → Except ε β) :
    (Except.error e : Except ε α) >>= f = Except.error e := rfl

/-- Effect of `scanNbFrames` on the state. -/
theorem scanNbFrames_effect (l : Str) (st st' : BlockState)
    (h : scanNbFrames l st = .ok st') :
    st'.width = st.width ∧ st'.height = st.height ∧
    st'.timecode = st.timecode ∧ st'.codec = st.codec ∧
    st'.codec_profile = st.codec_profile ∧ st'.pix_fmt = st.pix_fmt ∧
    st'.colorspace = st.colorspace ∧
    (st.frames ≠ 0 → st'.frames = st.frames) := by
  unfold scanNbFrames at h
  split at h
  next hc =>
    split at h
    · simp at h
    · simp only [Except.ok.injEq] at h
      subst h
      exact ⟨rfl, rfl, rfl, rfl, rfl, rfl, rfl, fun hf => absurd hc.2 hf⟩
  · simp only [Except.ok.injEq] at h
    subst h
    exact ⟨rfl, rfl, rfl, rfl, rfl, rfl, rfl, fun _ => rfl⟩

/-- Effect of `scanWidth` on the state. -/
theorem scanWidth_effect (l : Str) (st st' : BlockState)
    (h : scanWidth l st = .ok st') :
    st'.frames = st.frames ∧ st'.height = st.height ∧
    st'.timecode = st.timecode ∧ st'.codec = st.codec ∧
    st'.codec_profile = st.codec_profile ∧ st'.pix_fmt = st.pix_fmt ∧
    st'.colorspace = st.colorspace ∧
    (st.width ≠ [] → st'.width = st.width) := by
  unfold scanWidth at h
  split at h
  next hc =>
    simp only [Except.ok.injEq] at h
    subst h
    exact ⟨rfl, rfl, rfl, rfl, rfl, rfl, rfl, fun hw => absurd hc.2 hw⟩
  · simp only [Except.ok.injEq] at h
    subst h
    exact ⟨rfl, rfl, rfl, rfl, rfl, rfl, rfl, fun _ => rfl⟩

/-- Effect of `scanHeight` on the state. -/
theorem scanHeight_effect (l : Str) (st st' : BlockState)
    (h : scanHeight l st = .ok st') :
    st'.frames = st.frames ∧ st'.width = st.width ∧
    st'.timecode = st.timecode ∧ st'.codec = st.codec ∧
    st'.codec_profile = st.codec_profile ∧ st'.pix_fmt = st.pix_fmt ∧
    st'.colorspace = st.colorspace ∧
    (st.height ≠ [] → st'.height = st.height) := by
  unfold scanHeight at h
  split at h
  next hc =>
    simp only [Except.ok.injEq] at h
    subst h
    exact ⟨rfl, rfl, rfl, rfl, rfl, rfl, rfl, fun hw => absurd hc.2 hw⟩
  · simp only [Except.ok.injEq] at h
    subst h
    exact ⟨rfl, rfl, rfl, rfl, rfl, rfl, rfl, fun _ => rfl⟩

/-- Effect of `scanCodecName` on the state. -/
theorem scanCodecName_effect (l : Str) (st st' : BlockState)
    (h : scanCodecName l st = .ok st') :
    st'.frames = st.frames ∧ st'.width = st.width ∧
    st'.height = st.height ∧ st'.timecode = st.timecode ∧
    st'.codec_profile = st.codec_profile ∧ st'.pix_fmt = st.pix_fmt ∧
    st'.colorspace = st.colorspace ∧
    (st.codec ≠ [] → st'.codec = st.codec) := by
  unfold scanCodecName at h
  split at h
  next hc =>
    simp only [Except.ok.injEq] at h
    subst h
    exact ⟨rfl, rfl, rfl, rfl, rfl, rfl, rfl, fun hw => absurd hc.2 hw⟩
  · simp only [Except.ok.injEq] at h
    subst h
    exact ⟨rfl, rfl, rfl, rfl, rfl, rfl, rfl, fun _ => rfl⟩

/-- Effect of `scanCodecProfile` on the state. -/
theorem scanCodecProfile_effect (l : Str) (st st' : BlockState)
    (h : scanCodecProfile l st = .ok st') :
    st'.frames = st.frames ∧ st'.width = st.width ∧
    st'.height = st.height ∧ st'.timecode = st.timecode ∧
    st'.codec = st.codec ∧ st'.pix_fmt = st.pix_fmt ∧
    st'.colorspace = st.colorspace ∧
    (st.codec_profile ≠ [] → st'.codec_profile = st.codec_profile) := by
  unfold scanCodecProfile at h
  split at h
  next hc =>
    simp only [Except.ok.injEq] at h
    subst h
    exact ⟨rfl, rfl, rfl, rfl, rfl, rfl, rfl, fun hw => absurd hc.2 hw⟩
  · simp only [Except.ok.injEq] at h
    subst h
    exact ⟨rfl, rfl, rfl, rfl, rfl, rfl, rfl, fun _ => rfl⟩

/-- Effect of `scanPixFmt` on the state. -/
theorem scanPixFmt_effect (l : Str) (st st' : BlockState)
    (h : scanPixFmt l st = .ok st') :
    st'.frames = st.frames ∧ st'.width = st.width ∧
    st'.height = st.height ∧ st'.timecode = st.timecode ∧
    st'.codec = st.codec ∧ st'.codec_profile = st.codec_profile ∧
    st'.colorspace = st.colorspace ∧
    (st.pix_fmt ≠ [] → st'.pix_fmt = st.pix_fmt) := by
  unfold scanPixFmt at h
  split at h
  next hc =>
    simp only [Except.ok.injEq] at h
    subst h
    exact ⟨rfl, rfl, rfl, rfl, rfl, rfl, rfl, fun hw => absurd hc.2 hw⟩
  · simp only [Except.ok.injEq] at h
    subst h
    exact ⟨rfl, rfl, rfl, rfl, rfl, rfl, rfl, fun _ => rfl⟩

/-- Effect of `scanColorSpace` on the state. -/
theorem scanColorSpace_effect (l : Str) (st st' : BlockState)
    (h : scanColorSpace l st = .ok st') :
    st'.frames = st.frames ∧ st'.width = st.width ∧
    st'.height = st.height ∧ st'.timecode = st.timecode ∧
    st'.codec = st.codec ∧ st'.codec_profile = st.codec_profile ∧
    st'.pix_fmt = st.pix_fmt ∧
    (st.colorspace ≠ [] → st'.colorspace = st.colorspace) := by
  unfold scanColorSpace at h
  split at h
  next hc =>
    simp only [Except.ok.injEq] at h
    subst h
    exact ⟨rfl, rfl, rfl, rfl, rfl, rfl, rfl, fun hw => absurd hc.2 hw⟩
  · simp only [Except.ok.injEq] at h
    subst h
    exact ⟨rfl, rfl, rfl, rfl, rfl, rfl, rfl, fun _ => rfl⟩

/-- Effect of `scanTimecodeTag` on the state: every field except
`timecode` is untouched (note: `timecode` itself may be overwritten even
when already set). -/
theorem scanTimecodeTag_effect (l : Str) (st st' : BlockState)
    (h : scanTimecodeTag l st = .ok st') :
    st'.frames = st.frames ∧ st'.width = st.width ∧
    st'.height = st.height ∧ st'.codec = st.codec ∧
    st'.codec_profile = st.codec_profile ∧ st'.pix_fmt = st.pix_fmt ∧
    st'.colorspace = st.colorspace := by
  unfold scanTimecodeTag at h
  split at h
  · simp only [] at h
    split at h
    · simp at h
    · simp only [Except.ok.injEq] at h
      subst h
      exact ⟨rfl, rfl, rfl, rfl, rfl, rfl, rfl⟩
  · simp only [Except.ok.injEq] at h
    subst h
    exact ⟨rfl, rfl, rfl, rfl, rfl, rfl, rfl⟩

/-- One successful `blockLine` step preserves every already-recorded
field other than `timecode`. -/
theorem blockLine_preserves (l : Str) (st st' : BlockState)
    (h : blockLine l st = .ok st') :
    (st.frames ≠ 0 → st'.frames = st.frames) ∧
    (st.width ≠ [] → st'.width = st.width) ∧
    (st.height ≠ [] → st'.height = st.height) ∧
    (st.codec ≠ [] → st'.codec = st.codec) ∧
    (st.codec_profile ≠ [] → st'.codec_profile = st.codec_profile) ∧
    (st.pix_fmt ≠ [] → st'.pix_fmt = st.pix_fmt) ∧
    (st.colorspace ≠ [] → st'.colorspace = st.colorspace) := by
  unfold blockLine at h
  cases h1 : scanNbFrames l st with
  | error e => simp [h1, errBind] at h
  | ok s1 =>
  simp only [h1, okBind] at h
  cases h2 : scanWidth l s1 with
  | error e => simp [h2, errBind] at h
  | ok s2 =>
  simp only [h2, okBind] at h
  cases h3 : scanHeight l s2 with
  | error e => simp [h3, errBind] at h
  | ok s3 =>
  simp only [h3, okBind] at h
  cases h4 : scanCodecName l s3 with
  | error e => simp [h4, errBind] at h
  | ok s4 =>
  simp only [h4, okBind] at h
  cases h5 : scanCodecProfile l s4 with
  | error e => simp [h5, errBind] at h
  | ok s5 =>
  simp only [h5, okBind] at h
  cases h6 : scanPixFmt l s5 with
  | error e => simp [h6, errBind] at h
  | ok s6 =>
  simp only [h6, okBind] at h
  cases h7 : scanColorSpace l s6 with
  | error e => simp [h7, errBind] at h
  | ok s7 =>
  simp only [h7, okBind] at h
  obtain ⟨w1, hh1, tc1, cd1, cp1, px1, cs1, fr1⟩ := scanNbFrames_effect l st s1 h1
  obtain ⟨fr2, hh2, tc2, cd2, cp2, px2, cs2, w2⟩ := scanWidth_effect l s1 s2 h2
  obtain ⟨fr3, w3, tc3, cd3, cp3, px3, cs3, hh3⟩ := scanHeight_effect l s2 s3 h3
  obtain ⟨fr4, w4, hh4, tc4, cp4, px4, cs4, cd4⟩ := scanCodecName_effect l s3 s4 h4
  obtain ⟨fr5, w5, hh5, tc5, cd5, px5, cs5, cp5⟩ := scanCodecProfile_effect l s4 s5 h5
  obtain ⟨fr6, w6, hh6, tc6, cd6, cp6, cs6, px6⟩ := scanPixFmt_effect l s5 s6 h6
  obtain ⟨fr7, w7, hh7, tc7, cd7, cp7, px7, cs7⟩ := scanColorSpace_effect l s6 s7 h7
  obtain ⟨fr8, w8, hh8, cd8, cp8, px8, cs8⟩ := scanTimecodeTag_effect l s7 st' h
  constructor
  · intro hf
    rw [fr8, fr7, fr6, fr5, fr4, fr3, fr2, fr1 hf]
  constructor
  · intro hw
    rw [w8, w7, w6, w5, w4, w3, w2 (by rw [w1]; exact hw), w1]
  constructor
  · intro hh
    rw [hh8, hh7, hh6, hh5, hh4, hh3 (by rw [hh2, hh1]; exact hh), hh2, hh1]
  constructor
  · intro hc
    rw [cd8, cd7, cd6, cd5,
      cd4 (by rw [cd3, cd2, cd1]; exact hc), cd3, cd2, cd1]
  constructor
  · intro hc
    rw [cp8, cp7, cp6,
      cp5 (by rw [cp4, cp3, cp2, cp1]; exact hc), cp4, cp3, cp2, cp1]
  constructor
  · intro hp
    rw [px8, px7,
      px6 (by rw [px5, px4, px3, px2, px1]; exact hp), px5, px4, px3, px2,
      px1]
  · intro hs
    rw [cs8,
      cs7 (by rw [cs6, cs5, cs4, cs3, cs2, cs1]; exact hs), cs6, cs5, cs4,
      cs3, cs2, cs1]

/-- C3 (amended): during the video-block scan, a recorded `width`,
`height`, `codec_name`, `profile`, `pix_fmt` or `color_space` value is
never changed by a later line, and neither is a nonzero recorded
`nb_frames`; (`TAG:timecode=` is excluded: it is overwritten by every
later occurrence the scan reaches, and an `nb_frames` occurrence that
parses to 0 leaves the slot open). -/
theorem c3_first_seen_wins :
    ∀ (fps : Str) (ls : List Str) (st st' : BlockState),
      blockScan fps ls st = .ok st' →
      (st.frames ≠ 0 → st'.frames = st.frames) ∧
      (st.width ≠ [] → st'.width = st.width) ∧
      (st.height ≠ [] → st'.height = st.height) ∧
      (st.codec ≠ [] → st'.codec = st.codec) ∧
      (st.codec_profile ≠ [] → st'.codec_profile = st.codec_profile) ∧
      (st.pix_fmt ≠ [] → st'.pix_fmt = st.pix_fmt) ∧
      (st.colorspace ≠ [] → st'.colorspace = st.colorspace) := by
  intro fps ls
  induction ls with
  | nil =>
    intro st st' h
    unfold blockScan at h
    simp only [Except.ok.injEq] at h
    subst h
    exact ⟨fun _ => rfl, fun _ => rfl, fun _ => rfl, fun _ => rfl,
      fun _ => rfl, fun _ => rfl, fun _ => rfl⟩
  | cons l ls ih =>
    intro st st' h
    unfold blockScan at h
    split at h
    · simp only [Except.ok.injEq] at h
      subst h
      exact ⟨fun _ => rfl, fun _ => rfl, fun _ => rfl, fun _ => rfl,
        fun _ => rfl, fun _ => rfl, fun _ => rfl⟩
    · cases hb : blockLine l st with
      | error e => simp [hb] at h
      | ok st1 =>
        simp only [hb] at h
        obtain ⟨p1, p2, p3, p4, p5, p6, p7⟩ := blockLine_preserves l st st1 hb
        obtain ⟨q1, q2, q3, q4, q5, q6, q7⟩ := ih st1 st' h
        refine ⟨?_, ?_, ?_, ?_, ?_, ?_, ?_⟩
        · intro hx; rw [q1 (by rw [p1 hx]; exact hx), p1 hx]
        · intro hx; rw [q2 (by rw [p2 hx]; exact hx), p2 hx]
        · intro hx; rw [q3 (by rw [p3 hx]; exact hx), p3 hx]
        · intro hx; rw [q4 (by rw [p4 hx]; exact hx), p4 hx]
        · intro hx; rw [q5 (by rw [p5 hx]; exact hx), p5 hx]
        · intro hx; rw [q6 (by rw [p6 hx]; exact hx), p6 hx]
        · intro hx; rw [q7 (by rw [p7 hx]; exact hx), p7 hx]

/-- C3 witness: a recorded width survives a later `width=` line. -/
theorem c3_witness :
    (({ width := "1920".data } : BlockState)).width = "1920".data :=
  (c3_first_seen_wins ("30".data) [("width=640".data)]
      { width := "1920".data } { width := "1920".data } (by rfl)).2.1
    (by decide)

/-- A report whose video block contains two different `TAG:timecode=`
lines (and no `nb_frames`, so the scan never exits early). -/
def reportC3 : Str :=
  ("Stream #0:0(eng): Video: h264, 1920x1080, 29.97 fps\n" ++
   "[STREAM]\nTAG:timecode=00:00:00:00\nTAG:timecode=11:11:11:11\n" ++
   "[/STREAM]\n").data

/-- C3 counterexample: a later duplicate `TAG:timecode=` key DOES change
the recorded value — the reported start timecode is the second
occurrence, not the first. -/
theorem c3_counterexample :
    parse reportC3 { start := true } =
      .ret { start := "11:11:11:11".data } none ∧
    "11:11:11:11".data ≠ "00:00:00:00".data := ⟨by rfl, by decide⟩

/-- A report whose overview has a video stream line without any fps
token, and whose block carries a timecode. -/
def reportC4 : Str :=
  ("Stream #0:0: Video: h264\n" ++
   "[STREAM]\nTAG:timecode=00:00:00:00\n[/STREAM]\n").data

/-- C4 counterexample: `parse` returns a non-nil error (missing fps for
the `end` field) together with a result whose `start` field is already
populated — the accompanying result is partial, not all-empty. -/
theorem c4_counterexample :
    parse reportC4 { start := true, end_ := true } =
      .ret { start := "00:00:00:00".data } (some .missingFps) ∧
    ({ start := "00:00:00:00".data } : result).start ≠ [] :=
  ⟨by rfl, by decide⟩

/-- A report whose video block records `nb_frames=-5`. -/
def reportC9 : Str :=
  ("Stream #0:0(eng): Video: h264, 1920x1080, 29.97 fps\n" ++
   "[STREAM]\nnb_frames=-5\n[/STREAM]\n").data

/-- C9 counterexample: with a negative recorded `nb_frames` (not a
positive integer), `parse` does NOT fail with the missing-nb_frames
error — the guard is `frames == 0` — and happily reports `-5`. -/
theorem c9_counterexample :
    parse reportC9 { duration := true } =
      .ret { duration := "-5".data } none := by rfl

/-- The claim's validity pattern for a timecode string, from the spec's
words: exactly 11 characters, `:` separators at positions 2, 5, 8, and
two-digit decimal groups at positions 0–1, 3–4, 6–7, 9–10. -/
def specTimecodePattern (code : Str) : Bool :=
  code.length == 11 &&
  code.get? 2 == some ':' && code.get? 5 == some ':' &&
  code.get? 8 == some ':' &&
  ([0, 1, 3, 4, 6, 7, 9, 10].all fun i =>
    match code.get? i with
    | some c => isDigitGo c
    | none => false)

/-- C6 counterexample: `NewTimecode` accepts a string whose separator
positions are not `:` at all — the separators are never examined. -/
theorem c6_counterexample :
    NewTimecode ("00000000000".data) 24 false =
      .ok { base := 24, drop := false, frame := 0 } ∧
    specTimecodePattern ("00000000000".data) = false := ⟨by rfl, by rfl⟩

/-- C1 counterexample: for the supported pair (30, true) the formatted
string ends in `;FF`, so formatting the parsed timecode does not return
the original `HH:MM:SS:FF` string. -/
theorem c1_counterexample :
    NewTimecode ("00:00:00:00".data) 30 true =
      .ok { base := 30, drop := true, frame := 0 } ∧
    Timecode.toStr { base := 30, drop := true, frame := 0 } =
      "00:00:00;00".data ∧
    "00:00:00;00".data ≠ "00:00:00:00".data := ⟨by rfl, by rfl, by decide⟩

/-- `asmColorspace` never changes the earlier result fields. -/
theorem asmColorspace_keeps (cfg : config) (bs : BlockState) (res : result) :
    ((asmColorspace cfg bs res).1).start = res.start ∧
    ((asmColorspace cfg bs res).1).end_ = res.end_ ∧
    ((asmColorspace cfg bs res).1).duration = res.duration ∧
    ((asmColorspace cfg bs res).1).fps = res.fps ∧
    ((asmColorspace cfg bs res).1).resolution = res.resolution := by
  unfold asmColorspace
  split_ifs <;> exact ⟨rfl, rfl, rfl, rfl, rfl⟩

/-- `asmCodec` never changes the earlier result fields. -/
theorem asmCodec_keeps (cfg : config) (bs : BlockState) (res : result) :
    ((asmCodec cfg bs res).1).start = res.start ∧
    ((asmCodec cfg bs res).1).end_ = res.end_ ∧
    ((asmCodec cfg bs res).1).duration = res.duration ∧
    ((asmCodec cfg bs res).1).fps = res.fps ∧
    ((asmCodec cfg bs res).1).resolution = res.resolution := by
  unfold asmCodec asmColorspace
  split_ifs <;> exact ⟨rfl, rfl, rfl, rfl, rfl⟩

/-- `asmResolution` never changes the earlier result fields. -/
theorem asmResolution_keeps (cfg : config) (bs : BlockState) (res : result) :
    ((asmResolution cfg bs res).1).start = res.start ∧
    ((asmResolution cfg bs res).1).end_ = res.end_ ∧
    ((asmResolution cfg bs res).1).duration = res.duration ∧
    ((asmResolution cfg bs res).1).fps = res.fps := by
  unfold asmResolution asmCodec asmColorspace
  split_ifs <;> exact ⟨rfl, rfl, rfl, rfl⟩

/-- `asmFps` never changes the earlier result fields. -/
theorem asmFps_keeps (cfg : config) (fps : Str) (bs : BlockState)
    (res : result) :
    ((asmFps cfg fps bs res).1).start = res.start ∧
    ((asmFps cfg fps bs res).1).end_ = res.end_ ∧
    ((asmFps cfg fps bs res).1).duration = res.duration := by
  unfold asmFps asmResolution asmCodec asmColorspace
  split_ifs <;> exact ⟨rfl, rfl, rfl⟩

/-- `asmDuration` never changes the earlier result fields. -/
theorem asmDuration_keeps (cfg : config) (fps : Str) (bs : BlockState)
    (res : result) :
    ((asmDuration cfg fps bs res).1).start = res.start ∧
    ((asmDuration cfg fps bs res).1).end_ = res.end_ := by
  unfold asmDuration
  split
  · exact ⟨rfl, rfl⟩
  · constructor
    · rw [(asmFps_keeps cfg fps bs _).1]
      split <;> rfl
    · rw [(asmFps_keeps cfg fps bs _).2.1]
      split <;> rfl

/-- On a successful pipeline, `parse` is the assembly chain applied to
the zero-valued result. -/
theorem parse_ok_eq (data : Str) (cfg : config) (fps : Str)
    (bs : BlockState) (hp : pipeline data = .ok (fps, bs)) :
    parse data cfg =
      .ret (asmStart cfg fps bs {}).1 (asmStart cfg fps bs {}).2 := by
  unfold parse
  rw [hp]

/-- A config requesting duration but not start or end. -/
def cfgDuration (f r c cs : Bool) : config :=
  { duration := true, fps := f, resolution := r, codec := c,
    colorspace := cs }

/-- C9 (amended): with duration requested (and start/end not), `parse`
fails with the missing-nb_frames error exactly when the recorded frame
count is 0 (absent, or a literal that parses to 0); for any other
recorded value — including negative ones — it reports that value's
decimal string. -/
theorem c9_duration_field :
    ∀ (data fps : Str) (bs : BlockState) (f r c cs : Bool),
      pipeline data = .ok (fps, bs) →
      (bs.frames = 0 →
        parse data (cfgDuration f r c cs) =
          .ret {} (some .missingNbFrames)) ∧
      (bs.frames ≠ 0 →
        ∃ res oe,
          parse data (cfgDuration f r c cs) = .ret res oe ∧
          res.duration = itoa bs.frames) := by
  intro data fps bs f r c cs hp
  constructor
  · intro h0
    rw [parse_ok_eq data _ fps bs hp]
    have ha : asmStart (cfgDuration f r c cs) fps bs {} =
        ({}, some .missingNbFrames) := by
      unfold asmStart asmEnd asmDuration
      simp [cfgDuration, h0]
    rw [ha]
  · intro hnz
    refine ⟨_, _, parse_ok_eq data _ fps bs hp, ?_⟩
    unfold asmStart asmEnd asmDuration
    simp only [cfgDuration, Bool.false_eq_true, false_and, if_false,
      reduceIte, true_and, if_neg hnz]
    rw [(asmFps_keeps _ fps bs _).2.2]

/-- C2: when `end` is requested and the scan produced a timecode tag, a
supported fps and a frame count n ≥ 1, the returned result's `end` field
is the `String` of `NewTimecode(tc, base, drop)` after `Add(n - 1)`,
with base = 30 for fps 30/29.97 (else 24) and drop exactly for 29.97. -/
theorem c2_end_field :
    ∀ (data : Str) (cfg : config) (fps : Str) (bs : BlockState)
      (t : Timecode),
      pipeline data = .ok (fps, bs) →
      cfg.end_ = true →
      bs.timecode ≠ [] →
      (fps = "30".data ∨ fps = "29.97".data ∨ fps = "24".data ∨
        fps = "23.98".data ∨ fps = "23.976".data) →
      1 ≤ bs.frames →
      NewTimecode bs.timecode (baseOf fps) (dropOf fps) = .ok t →
      ∃ res oe, parse data cfg = .ret res oe ∧
        res.end_ = (t.Add (bs.frames - 1)).toStr := by
  intro data cfg fps bs t hp hend htc hfps hfr hnt
  have hfne : fps ≠ [] := by
    rcases hfps with h | h | h | h | h <;> simp [h]
  have hfz : ¬bs.frames = 0 := by omega
  refine ⟨_, _, parse_ok_eq data cfg fps bs hp, ?_⟩
  unfold asmStart
  rw [if_neg (fun hc => htc hc.2)]
  unfold asmEnd
  rw [if_neg (fun hc => htc hc.2)]
  rw [if_neg (fun hc => hfne hc.2)]
  rw [if_neg (fun hc => hfz hc.2)]
  rw [if_neg (fun hc => by
    rcases hfps with h | h | h | h | h
    · exact hc.2.1 h
    · exact hc.2.2.1 h
    · exact hc.2.2.2.1 h
    · exact hc.2.2.2.2.1 h
    · exact hc.2.2.2.2.2 h)]
  rw [if_pos hend]
  rw [hnt]
  exact (asmDuration_keeps cfg fps bs _).2

/-- C2 witness: the claim's own instance — timecode 00:00:00:00, fps
29.97, 102 frames. -/
theorem c2_witness :
    ∃ res oe,
      parse reportA { end_ := true } = .ret res oe ∧
      res.end_ =
        (Timecode.Add { base := 30, drop := true, frame := 0 }
          ((102 : Int) - 1)).toStr :=
  c2_end_field reportA { end_ := true } ("29.97".data)
    { frames := 102, width := "1920".data, height := "1080".data,
      timecode := "00:00:00:00".data }
    { base := 30, drop := true, frame := 0 }
    (by rfl) (by rfl) (by decide) (Or.inr (Or.inl rfl)) (by decide) (by rfl)

/-- C6 (amended): with base 24 or 30, `NewTimecode` succeeds iff the code
has length 11 and each of the four 2-character groups at positions 0–1,
3–4, 6–8, 9–10 parses under Go `Atoi` (which also accepts a sign followed
by a digit); the three separator characters are never examined; every
failure carries the invalid-timecode error. -/
theorem c6_validation :
    ∀ (code : Str) (base : Int) (drop : Bool),
      (base = 24 ∨ base = 30) →
      (((∃ t, NewTimecode code base drop = .ok t) ↔
        (code.length = 11 ∧ (atoi (slice code 0 2)).isSome ∧
          (atoi (slice code 3 5)).isSome ∧ (atoi (slice code 6 8)).isSome ∧
          (atoi (slice code 9 11)).isSome)) ∧
        (∀ e, NewTimecode code base drop = .error e →
          e = .invalidTimecode code)) := by
  intro code base drop hbase
  have hb : ¬(base ≠ 24 ∧ base ≠ 30) := by tauto
  constructor
  · unfold NewTimecode
    rw [if_neg hb]
    by_cases hlen : code.length = 11
    · rw [if_neg (by simp [hlen])]
      cases h1 : atoi (slice code 0 2) <;>
        cases h2 : atoi (slice code 3 5) <;>
          cases h3 : atoi (slice code 6 8) <;>
            cases h4 : atoi (slice code 9 11) <;>
              simp [h1, h2, h3, h4, hlen]
    · rw [if_pos (by simpa using hlen)]
      simp [hlen]
  · intro e he
    unfold NewTimecode at he
    rw [if_neg hb] at he
    split at he <;> simp only [] at he <;>
    · split at he
      · injection he with h
        exact h.symm
      · split at he
        · simp at he
        · injection he with h
          exact h.symm

/-- C6 witness: the validation criterion at a well-formed timecode. -/
theorem c6_witness :
    (((∃ t, NewTimecode ("12:34:56:78".data) 24 false = .ok t) ↔
      (("12:34:56:78".data).length = 11 ∧
        (atoi (slice ("12:34:56:78".data) 0 2)).isSome ∧
        (atoi (slice ("12:34:56:78".data) 3 5)).isSome ∧
        (atoi (slice ("12:34:56:78".data) 6 8)).isSome ∧
        (atoi (slice ("12:34:56:78".data) 9 11)).isSome)) ∧
      (∀ e, NewTimecode ("12:34:56:78".data) 24 false = .error e →
        e = .invalidTimecode ("12:34:56:78".data))) :=
  c6_validation ("12:34:56:78".data) 24 false (Or.inl rfl)

/-- C9 witness: the nb_frames=-5 report through the amended statement. -/
theorem c9_witness :
    ∃ res oe,
      parse reportC9 (cfgDuration false false false false) = .ret res oe ∧
      res.duration = itoa (({ frames := -5 } : BlockState)).frames :=
  (c9_duration_field reportC9 ("29.97".data) { frames := -5 }
    false false false false (by rfl)).2 (by decide)

/-- Go division of casts is Nat division (the `tdiv`/`Nat.div` match). -/
theorem tdivN (a b : Nat) : godiv (a : Int) (b : Int) = ((a / b : Nat) : Int) :=
  rfl

/-- Go remainder of casts is the Nat remainder. -/
theorem tmodN (a b : Nat) : gomod (a : Int) (b : Int) = ((a % b : Nat) : Int) :=
  rfl

/-- `godiv` of a cast by the literal 24. -/
theorem tdiv24 (a : Nat) : godiv (a : Int) 24 = ((a / 24 : Nat) : Int) := rfl

/-- `godiv` of a cast by the literal 30. -/
theorem tdiv30 (a : Nat) : godiv (a : Int) 30 = ((a / 30 : Nat) : Int) := rfl

/-- `godiv` of a cast by the literal 60. -/
theorem tdiv60 (a : Nat) : godiv (a : Int) 60 = ((a / 60 : Nat) : Int) := rfl

/-- `godiv` of a cast by the literal 10. -/
theorem tdiv10 (a : Nat) : godiv (a : Int) 10 = ((a / 10 : Nat) : Int) := rfl

/-- `godiv` of a cast by the literal 17982. -/
theorem tdiv17982 (a : Nat) :
    godiv (a : Int) 17982 = ((a / 17982 : Nat) : Int) := rfl

/-- `gomod` of a cast by the literal 24. -/
theorem tmod24 (a : Nat) : gomod (a : Int) 24 = ((a % 24 : Nat) : Int) := rfl

/-- `gomod` of a cast by the literal 30. -/
theorem tmod30 (a : Nat) : gomod (a : Int) 30 = ((a % 30 : Nat) : Int) := rfl

/-- `gomod` of a cast by the literal 60. -/
theorem tmod60 (a : Nat) : gomod (a : Int) 60 = ((a % 60 : Nat) : Int) := rfl

/-- `gomod` of a cast by the literal 17982. -/
theorem tmod17982 (a : Nat) :
    gomod (a : Int) 17982 = ((a % 17982 : Nat) : Int) := rfl

/-- `godiv (M - 2) 1798` agrees with the Nat computation even for
`M < 2`: Go's truncated division sends `-2/1798` and `-1/1798` to 0, and
Nat subtraction truncates at 0 likewise. -/
theorem tdiv1798sub2 (M : Nat) :
    godiv ((M : Int) - 2) 1798 = (((M - 2) / 1798 : Nat) : Int) := by
  rcases Nat.lt_or_ge M 2 with hM | hM
  · interval_cases M <;> decide
  · rw [show ((M : Int) - 2) = ((M - 2 : Nat) : Int) by omega]
    exact tdivN _ _

/-- `pad2` of a value below 100 is its two decimal digits. -/
theorem pad2_eq : ∀ n : Nat, n < 100 →
    pad2 (n : Int) = [digitChar (n / 10), digitChar (n % 10)] := by decide

/-- `atoi` inverts `pad2` below 100. -/
theorem atoi_pad2 : ∀ n : Nat, n < 100 →
    atoi (pad2 (n : Int)) = some (n : Int) := by decide

/-- The canonical rendering of four two-digit fields with `:` separators
except the final one. -/
def tcRender (h m s f : Nat) (sep : Char) : Str :=
  pad2 (h : Int) ++ [':'] ++ pad2 (m : Int) ++ [':'] ++ pad2 (s : Int) ++
    [sep] ++ pad2 (f : Int)

/-- Shape facts about `tcRender`: length 11 and the four byte-slices the
codec reads are exactly the `pad2` groups, which `atoi` inverts. -/
theorem tcRender_parse (h m s f : Nat) (sep : Char)
    (hh : h < 100) (hm : m < 100) (hs : s < 100) (hf : f < 100) :
    (tcRender h m s f sep).length = 11 ∧
    atoi (slice (tcRender h m s f sep) 0 2) = some (h : Int) ∧
    atoi (slice (tcRender h m s f sep) 3 5) = some (m : Int) ∧
    atoi (slice (tcRender h m s f sep) 6 8) = some (s : Int) ∧
    atoi (slice (tcRender h m s f sep) 9 11) = some (f : Int) := by
  have e1 : slice (tcRender h m s f sep) 0 2 = pad2 (h : Int) := by
    unfold tcRender
    rw [pad2_eq h hh, pad2_eq m hm, pad2_eq s hs, pad2_eq f hf]
    rfl
  have e2 : slice (tcRender h m s f sep) 3 5 = pad2 (m : Int) := by
    unfold tcRender
    rw [pad2_eq h hh, pad2_eq m hm, pad2_eq s hs, pad2_eq f hf]
    rfl
  have e3 : slice (tcRender h m s f sep) 6 8 = pad2 (s : Int) := by
    unfold tcRender
    rw [pad2_eq h hh, pad2_eq m hm, pad2_eq s hs, pad2_eq f hf]
    rfl
  have e4 : slice (tcRender h m s f sep) 9 11 = pad2 (f : Int) := by
    unfold tcRender
    rw [pad2_eq h hh, pad2_eq m hm, pad2_eq s hs, pad2_eq f hf]
    rfl
  refine ⟨?_, ?_, ?_, ?_, ?_⟩
  · unfold tcRender
    rw [pad2_eq h hh, pad2_eq m hm, pad2_eq s hs, pad2_eq f hf]
    rfl
  · rw [e1]; exact atoi_pad2 h hh
  · rw [e2]; exact atoi_pad2 m hm
  · rw [e3]; exact atoi_pad2 s hs
  · rw [e4]; exact atoi_pad2 f hf

/-- `NewTimecode` on a rendered code, base 24 non-drop. -/
theorem NewTimecode24 (h m s f : Nat)
    (hh : h < 100) (hm : m < 100) (hs : s < 100) (hf : f < 100) :
    NewTimecode (tcRender h m s f ':') 24 false =
      .ok { base := 24, drop := false,
            frame := ((86400 * h + 1440 * m + 24 * s + f : Nat) : Int) } := by
  obtain ⟨hlen, e1, e2, e3, e4⟩ := tcRender_parse h m s f ':' hh hm hs hf
  unfold NewTimecode
  rw [if_neg (by norm_num)]
  rw [if_neg (by simp [hlen])]
  rw [e1, e2, e3, e4]
  simp only [Except.ok.injEq, Timecode.mk.injEq]
  norm_num
  ring

/-- `NewTimecode` on a rendered code, base 30 non-drop. -/
theorem NewTimecode30 (h m s f : Nat)
    (hh : h < 100) (hm : m < 100) (hs : s < 100) (hf : f < 100) :
    NewTimecode (tcRender h m s f ':') 30 false =
      .ok { base := 30, drop := false,
            frame := ((108000 * h + 1800 * m + 30 * s + f : Nat) : Int) } := by
  obtain ⟨hlen, e1, e2, e3, e4⟩ := tcRender_parse h m s f ':' hh hm hs hf
  unfold NewTimecode
  rw [if_neg (by norm_num)]
  rw [if_neg (by simp [hlen])]
  rw [e1, e2, e3, e4]
  simp only [Except.ok.injEq, Timecode.mk.injEq]
  norm_num
  ring

/-- `NewTimecode` on a rendered code, base 30 drop-frame: the stored
frame subtracts the two codes dropped at the start of every minute not
divisible by ten. -/
theorem NewTimecode30drop (h m s f : Nat)
    (hh : h < 100) (hm : m < 100) (hs : s < 100) (hf : f < 100) :
    NewTimecode (tcRender h m s f ':') 30 true =
      .ok { base := 30, drop := true,
            frame := ((108000 * h + 1800 * m + 30 * s + f -
              2 * (60 * h + m - (60 * h + m) / 10) : Nat) : Int) } := by
  obtain ⟨hlen, e1, e2, e3, e4⟩ := tcRender_parse h m s f ':' hh hm hs hf
  unfold NewTimecode
  rw [if_neg (by norm_num)]
  rw [if_neg (by simp [hlen])]
  rw [e1, e2, e3, e4]
  simp only [Except.ok.injEq, Timecode.mk.injEq]
  norm_num
  rw [show (60 * (h : Int) + (m : Int)) = ((60 * h + m : Nat) : Int) by
    push_cast; ring]
  rw [tdiv10]
  omega

/-- The frame count after re-introducing the skipped drop-frame codes in
the `String` method. -/
def dropAdjust (n : Nat) : Nat :=
  n + 18 * (n / 17982) + 2 * ((n % 17982 - 2) / 1798)

/-- The `String` method on a non-negative frame count, base 24 non-drop. -/
theorem toStr24n (n : Nat) :
    Timecode.toStr { base := 24, drop := false, frame := (n : Int) } =
      pad2 ((n / 24 / 60 / 60 % 24 : Nat) : Int) ++ [':'] ++
      pad2 ((n / 24 / 60 % 60 : Nat) : Int) ++ [':'] ++
      pad2 ((n / 24 % 60 : Nat) : Int) ++ [':'] ++
      pad2 ((n % 24 : Nat) : Int) := by
  simp only [Timecode.toStr, Bool.false_eq_true, if_false, tdiv24,
    tdiv60, tmod24, tmod60]

/-- The `String` method on a non-negative frame count, base 30 non-drop. -/
theorem toStr30n (n : Nat) :
    Timecode.toStr { base := 30, drop := false, frame := (n : Int) } =
      pad2 ((n / 30 / 60 / 60 % 24 : Nat) : Int) ++ [':'] ++
      pad2 ((n / 30 / 60 % 60 : Nat) : Int) ++ [':'] ++
      pad2 ((n / 30 % 60 : Nat) : Int) ++ [':'] ++
      pad2 ((n % 30 : Nat) : Int) := by
  simp only [Timecode.toStr, Bool.false_eq_true, if_false, tdiv30,
    tdiv60, tmod24, tmod30, tmod60]

/-- The `String` method on a non-negative frame count, drop-frame:
display fields come from `dropAdjust` and the final separator is `;`. -/
theorem toStr_drop (n : Nat) :
    Timecode.toStr { base := 30, drop := true, frame := (n : Int) } =
      pad2 ((dropAdjust n / 30 / 60 / 60 % 24 : Nat) : Int) ++ [':'] ++
      pad2 ((dropAdjust n / 30 / 60 % 60 : Nat) : Int) ++ [':'] ++
      pad2 ((dropAdjust n / 30 % 60 : Nat) : Int) ++ [';'] ++
      pad2 ((dropAdjust n % 30 : Nat) : Int) := by
  simp only [Timecode.toStr, if_true, tdiv17982, tmod17982, tdiv1798sub2]
  rw [show ((n : Int) + 18 * ((n / 17982 : Nat) : Int) +
      2 * (((n % 17982 - 2) / 1798 : Nat) : Int)) =
      ((dropAdjust n : Nat) : Int) by unfold dropAdjust; push_cast; ring]
  simp only [tdiv30, tdiv60, tmod30, tmod60, tmod24]

/-- Splitting a base-24 frame count into display fields. -/
theorem display24 (h m s f : Nat) (hh : h < 24) (hm : m < 60)
    (hs : s < 60) (hf : f < 24) :
    (86400 * h + 1440 * m + 24 * s + f) / 24 / 60 / 60 % 24 = h ∧
    (86400 * h + 1440 * m + 24 * s + f) / 24 / 60 % 60 = m ∧
    (86400 * h + 1440 * m + 24 * s + f) / 24 % 60 = s ∧
    (86400 * h + 1440 * m + 24 * s + f) % 24 = f := by
  omega

/-- Splitting a base-30 frame count into display fields. -/
theorem display30 (h m s f : Nat) (hh : h < 24) (hm : m < 60)
    (hs : s < 60) (hf : f < 30) :
    (108000 * h + 1800 * m + 30 * s + f) / 30 / 60 / 60 % 24 = h ∧
    (108000 * h + 1800 * m + 30 * s + f) / 30 / 60 % 60 = m ∧
    (108000 * h + 1800 * m + 30 * s + f) / 30 % 60 = s ∧
    (108000 * h + 1800 * m + 30 * s + f) % 30 = f := by
  omega

/-- `dropAdjust` inverts the drop-frame subtraction of the parser for
every in-range timecode that is not one of the skipped frame codes. -/
theorem dropAdjust_inverse (h m s f : Nat) (hh : h < 24) (hm : m < 60)
    (hs : s < 60) (hf : f < 30) (hns : m % 10 = 0 ∨ 2 ≤ 30 * s + f) :
    dropAdjust (108000 * h + 1800 * m + 30 * s + f -
        2 * (60 * h + m - (60 * h + m) / 10)) =
      108000 * h + 1800 * m + 30 * s + f := by
  unfold dropAdjust
  have hq := Nat.div_add_mod (60 * h + m) 10
  set q := (60 * h + m) / 10 with hqd
  set r := (60 * h + m) % 10 with hrd
  have hr10 : r < 10 := Nat.mod_lt _ (by norm_num)
  have hmr : r = m % 10 := by omega
  set F := 108000 * h + 1800 * m + 30 * s + f - 2 * (60 * h + m - q)
    with hFd
  have hF2 : F = 17982 * q + 1798 * r + (30 * s + f) := by omega
  have hdiv : F / 17982 = q := by omega
  have hmod : F % 17982 = 1798 * r + (30 * s + f) := by omega
  have hd : (F % 17982 - 2) / 1798 = r := by
    rw [hmod]
    rcases hns with h0 | h2 <;> omega
  rw [hdiv, hd]
  omega

/-- C1 (amended): for in-range timecodes (h<24, m<60, s<60, f<base),
formatting the parsed timecode returns the original string for the
non-drop pairs (24,false) and (30,false); for (30,true) the same holds
for every code that is not a skipped drop-frame code, except that the
final separator of the output is `;` rather than `:`. -/
theorem c1_roundtrip :
    ∀ h m s f : Nat, h < 24 → m < 60 → s < 60 →
      (f < 24 →
        ∃ t, NewTimecode (tcRender h m s f ':') 24 false = .ok t ∧
          t.toStr = tcRender h m s f ':') ∧
      (f < 30 →
        ∃ t, NewTimecode (tcRender h m s f ':') 30 false = .ok t ∧
          t.toStr = tcRender h m s f ':') ∧
      (f < 30 → ¬(s = 0 ∧ f < 2 ∧ m % 10 ≠ 0) →
        ∃ t, NewTimecode (tcRender h m s f ':') 30 true = .ok t ∧
          t.toStr = tcRender h m s f ';') := by
  intro h m s f hh hm hs
  refine ⟨?_, ?_, ?_⟩
  · intro hf
    refine ⟨_, NewTimecode24 h m s f (by omega) (by omega) (by omega)
      (by omega), ?_⟩
    rw [toStr24n]
    obtain ⟨d1, d2, d3, d4⟩ := display24 h m s f hh hm hs hf
    rw [d1, d2, d3, d4]
    rfl
  · intro hf
    refine ⟨_, NewTimecode30 h m s f (by omega) (by omega) (by omega)
      (by omega), ?_⟩
    rw [toStr30n]
    obtain ⟨d1, d2, d3, d4⟩ := display30 h m s f hh hm hs hf
    rw [d1, d2, d3, d4]
    rfl
  · intro hf hns
    refine ⟨_, NewTimecode30drop h m s f (by omega) (by omega) (by omega)
      (by omega), ?_⟩
    rw [toStr_drop]
    rw [dropAdjust_inverse h m s f hh hm hs hf (by omega)]
    obtain ⟨d1, d2, d3, d4⟩ := display30 h m s f hh hm hs hf
    rw [d1, d2, d3, d4]
    rfl

/-- C1 witness: a concrete drop-frame round trip at 00:01:02:03. -/
theorem c1_witness :
    ∃ t, NewTimecode (tcRender 0 1 2 3 ':') 30 true = .ok t ∧
      t.toStr = tcRender 0 1 2 3 ';' :=
  ((c1_roundtrip 0 1 2 3 (by decide) (by decide) (by decide)).2.2)
    (by decide) (by decide)

/-- A digit character is `'0'` exactly for the digit 0. -/
theorem digitChar_zero : ∀ a : Nat, a < 10 →
    (digitChar a = '0' ↔ a = 0) := by decide

/-- A digit character is `'1'` exactly for the digit 1. -/
theorem digitChar_one : ∀ a : Nat, a < 10 →
    (digitChar a = '1' ↔ a = 1) := by decide

/-- The drop-frame skip invariant, numerically: after re-introducing the
skipped codes, a nonzero minutes-ones digit together with seconds 00
forces a frame field of at least 02. -/
theorem c8_core (n : Nat) :
    (dropAdjust n / 30 / 60 % 60) % 10 ≠ 0 →
    dropAdjust n / 30 % 60 = 0 → 2 ≤ dropAdjust n % 30 := by
  intro hmnz hsz
  unfold dropAdjust at hmnz hsz ⊢
  have hn := Nat.div_add_mod n 17982
  set D := n / 17982 with hD
  set M := n % 17982 with hM
  have hMb : M < 17982 := Nat.mod_lt _ (by norm_num)
  rcases Nat.lt_or_ge M 2 with hM2 | hM2
  · exfalso
    apply hmnz
    have hd : (M - 2) / 1798 = 0 := by omega
    rw [hd]
    omega
  · have he := Nat.div_add_mod (M - 2) 1798
    set d := (M - 2) / 1798 with hd
    set e := (M - 2) % 1798 with he2
    have helt : e < 1798 := Nat.mod_lt _ (by norm_num)
    have hd9 : d ≤ 9 := by omega
    have hM3 : M = 1798 * d + e + 2 := by omega
    omega

/-- C8: drop-frame formatting of any non-negative stored frame count
yields an 11-character string whose frame field is never `00` or `01`
when its seconds field is `00` and its minutes field is not a multiple
of 10 (minutes-ones character not `'0'`). -/
theorem c8_drop_skip :
    ∀ (fr : Int) (out : Str), 0 ≤ fr →
      out = Timecode.toStr { base := 30, drop := true, frame := fr } →
      out.length = 11 ∧
      (out.get? 6 = some '0' → out.get? 7 = some '0' →
        out.get? 4 ≠ some '0' →
        ¬(out.get? 9 = some '0' ∧
          (out.get? 10 = some '0' ∨ out.get? 10 = some '1'))) := by
  intro fr out hfr hout
  lift fr to Nat using hfr with n
  rw [toStr_drop n] at hout
  rw [pad2_eq _ (by omega), pad2_eq _ (by omega), pad2_eq _ (by omega),
    pad2_eq _ (by omega)] at hout
  subst hout
  simp only [List.cons_append, List.nil_append]
  refine ⟨rfl, ?_⟩
  simp only [List.get?]
  intro h6 h7 h4
  rintro ⟨h9, h10⟩
  have hs0 : dropAdjust n / 30 % 60 = 0 := by
    have e6 := Option.some.inj h6
    have e7 := Option.some.inj h7
    rw [digitChar_zero _ (by omega)] at e6 e7
    omega
  have hmnz : (dropAdjust n / 30 / 60 % 60) % 10 ≠ 0 := by
    intro h0
    apply h4
    rw [h0]
    rfl
  have hf2 := c8_core n hmnz hs0
  have e9 := Option.some.inj h9
  rw [digitChar_zero _ (by omega)] at e9
  rcases h10 with h10 | h10
  · have e10 := Option.some.inj h10
    rw [digitChar_zero _ (by omega)] at e10
    omega
  · have e10 := Option.some.inj h10
    rw [digitChar_one _ (by omega)] at e10
    omega

/-- C8 witness: the invariant at frame 0 (string `00:00:00;00`). -/
theorem c8_witness :
    (("00:00:00;00".data : Str).length = 11 ∧
      (("00:00:00;00".data : Str).get? 6 = some '0' →
        ("00:00:00;00".data : Str).get? 7 = some '0' →
        ("00:00:00;00".data : Str).get? 4 ≠ some '0' →
        ¬(("00:00:00;00".data : Str).get? 9 = some '0' ∧
          (("00:00:00;00".data : Str).get? 10 = some '0' ∨
            ("00:00:00;00".data : Str).get? 10 = some '1')))) :=
  c8_drop_skip 0 ("00:00:00;00".data) (by decide) (by rfl)

/-- The first failing requirement of the `end` field, in source order,
or `none` when the field can be computed. -/
def endCheck (fps : Str) (bs : BlockState) : Option GoErr :=
  if bs.timecode = [] then some .missingTimecode
  else if fps = [] then some .missingFps
  else if bs.frames = 0 then some .missingNbFrames
  else if fps ≠ "30".data ∧ fps ≠ "29.97".data ∧ fps ≠ "24".data ∧
      fps ≠ "23.98".data ∧ fps ≠ "23.976".data then
    some (.unsupportedFps fps)
  else
    match NewTimecode bs.timecode (baseOf fps) (dropOf fps) with
    | .error e => some e
    | .ok _ => none

/-- The value the `end` field computes when its checks pass. -/
def endVal (fps : Str) (bs : BlockState) : Str :=
  match NewTimecode bs.timecode (baseOf fps) (dropOf fps) with
  | .ok tc => (tc.Add (bs.frames - 1)).toStr
  | .error _ => []

/-- `asmCodec` (and what follows it) never fails. -/
theorem asmCodec_snd (cfg : config) (bs : BlockState) (res : result) :
    (asmCodec cfg bs res).2 = none := by
  unfold asmCodec asmColorspace
  split_ifs <;> rfl

/-- The duration-and-later part of the assembly: when it returns an
error, the error is the first of the remaining field checks in order,
and the result extends `res1` with exactly the fields computed before
the failure. -/
theorem c4_tail (cfg : config) (fps : Str) (bs : BlockState)
    (res1 res : result) (e : GoErr)
    (ha : asmDuration cfg fps bs res1 = (res, some e)) :
    (cfg.duration = true ∧ bs.frames = 0 ∧ e = .missingNbFrames ∧
      res = res1) ∨
    (cfg.resolution = true ∧
      ((bs.width = [] ∧ e = .missingWidth) ∨
        (bs.width ≠ [] ∧ bs.height = [] ∧ e = .missingHeight)) ∧
      ¬(cfg.duration = true ∧ bs.frames = 0) ∧
      res = { res1 with
              duration := if cfg.duration then itoa bs.frames
                else res1.duration,
              fps := if cfg.fps then fps else res1.fps }) := by
  unfold asmDuration at ha
  by_cases d1 : cfg.duration = true ∧ bs.frames = 0
  · rw [if_pos d1] at ha
    simp only [Prod.mk.injEq, Option.some.injEq] at ha
    exact Or.inl ⟨d1.1, d1.2, ha.2.symm, ha.1.symm⟩
  · rw [if_neg d1] at ha
    unfold asmFps asmResolution at ha
    by_cases r1 : cfg.resolution = true ∧ bs.width = []
    · rw [if_pos r1] at ha
      simp only [Prod.mk.injEq, Option.some.injEq] at ha
      refine Or.inr ⟨r1.1, Or.inl ⟨r1.2, ha.2.symm⟩, d1, ?_⟩
      rw [← ha.1]
      split_ifs <;> rfl
    · rw [if_neg r1] at ha
      by_cases r2 : cfg.resolution = true ∧ bs.height = []
      · rw [if_pos r2] at ha
        simp only [Prod.mk.injEq, Option.some.injEq] at ha
        refine Or.inr ⟨r2.1, Or.inr ⟨fun hw => r1 ⟨r2.1, hw⟩, r2.2,
          ha.2.symm⟩, d1, ?_⟩
        rw [← ha.1]
        split_ifs <;> rfl
      · rw [if_neg r2] at ha
        have := asmCodec_snd cfg bs
          (if cfg.resolution = true then
            { (if cfg.fps = true then
                { (if cfg.duration = true then
                    { res1 with duration := itoa bs.frames }
                  else res1) with fps := fps }
              else
                (if cfg.duration = true then
                  { res1 with duration := itoa bs.frames }
                else res1)) with
              resolution := bs.width ++ "*".data ++ bs.height }
          else
            (if cfg.fps = true then
              { (if cfg.duration = true then
                  { res1 with duration := itoa bs.frames }
                else res1) with fps := fps }
            else
              (if cfg.duration = true then
                { res1 with duration := itoa bs.frames }
              else res1)))
        rw [ha] at this
        simp at this

/-- C4 (amended): when `parse` returns a non-nil error after a
successful pipeline, the error is the first failing check among the
requested fields in the fixed order start, end, duration, fps,
resolution, codec, colorspace (fps, codec and colorspace never fail),
and the accompanying result holds exactly the requested fields computed
before the failing one — already-computed fields are returned alongside
the error, not discarded; the caller is expected to ignore them. -/
theorem c4_first_error :
    ∀ (data : Str) (cfg : config) (fps : Str) (bs : BlockState)
      (res : result) (e : GoErr),
      pipeline data = .ok (fps, bs) →
      parse data cfg = .ret res (some e) →
      (cfg.start = true ∧ bs.timecode = [] ∧ e = .missingTimecode ∧
        res = {}) ∨
      (cfg.end_ = true ∧ endCheck fps bs = some e ∧
        ¬(cfg.start = true ∧ bs.timecode = []) ∧
        res = { start := if cfg.start then bs.timecode else [] }) ∨
      (cfg.duration = true ∧ bs.frames = 0 ∧ e = .missingNbFrames ∧
        ¬(cfg.start = true ∧ bs.timecode = []) ∧
        (cfg.end_ = true → endCheck fps bs = none) ∧
        res = { start := if cfg.start then bs.timecode else [],
                end_ := if cfg.end_ then endVal fps bs else [] }) ∨
      (cfg.resolution = true ∧
        ((bs.width = [] ∧ e = .missingWidth) ∨
          (bs.width ≠ [] ∧ bs.height = [] ∧ e = .missingHeight)) ∧
        ¬(cfg.start = true ∧ bs.timecode = []) ∧
        (cfg.end_ = true → endCheck fps bs = none) ∧
        ¬(cfg.duration = true ∧ bs.frames = 0) ∧
        res = { start := if cfg.start then bs.timecode else [],
                end_ := if cfg.end_ then endVal fps bs else [],
                duration := if cfg.duration then itoa bs.frames else [],
                fps := if cfg.fps then fps else [] }) := by
  intro data cfg fps bs res e hp h
  rw [parse_ok_eq data cfg fps bs hp] at h
  cases ha : asmStart cfg fps bs ({} : result) with
  | mk r oe =>
    rw [ha] at h
    simp only [ParseOut.ret.injEq] at h
    obtain ⟨h1, h2⟩ := h
    subst h1
    subst h2
    unfold asmStart at ha
    by_cases c1 : cfg.start = true ∧ bs.timecode = []
    · rw [if_pos c1] at ha
      simp only [Prod.mk.injEq, Option.some.injEq] at ha
      exact Or.inl ⟨c1.1, c1.2, ha.2.symm, ha.1.symm⟩
    · rw [if_neg c1] at ha
      unfold asmEnd at ha
      by_cases c2 : cfg.end_ = true ∧ bs.timecode = []
      · rw [if_pos c2] at ha
        simp only [Prod.mk.injEq, Option.some.injEq] at ha
        refine Or.inr (Or.inl ⟨c2.1, ?_, c1, ?_⟩)
        · unfold endCheck
          rw [if_pos c2.2, ha.2]
        · rw [← ha.1]
          split_ifs <;> rfl
      · rw [if_neg c2] at ha
        by_cases c3 : cfg.end_ = true ∧ fps = []
        · rw [if_pos c3] at ha
          simp only [Prod.mk.injEq, Option.some.injEq] at ha
          have htc : bs.timecode ≠ [] := fun hx => c2 ⟨c3.1, hx⟩
          refine Or.inr (Or.inl ⟨c3.1, ?_, c1, ?_⟩)
          · unfold endCheck
            rw [if_neg htc, if_pos c3.2, ha.2]
          · rw [← ha.1]
            split_ifs <;> rfl
        · rw [if_neg c3] at ha
          by_cases c4 : cfg.end_ = true ∧ bs.frames = 0
          · rw [if_pos c4] at ha
            simp only [Prod.mk.injEq, Option.some.injEq] at ha
            have htc : bs.timecode ≠ [] := fun hx => c2 ⟨c4.1, hx⟩
            have hfp : fps ≠ [] := fun hx => c3 ⟨c4.1, hx⟩
            refine Or.inr (Or.inl ⟨c4.1, ?_, c1, ?_⟩)
            · unfold endCheck
              rw [if_neg htc, if_neg hfp, if_pos c4.2, ha.2]
            · rw [← ha.1]
              split_ifs <;> rfl
          · rw [if_neg c4] at ha
            by_cases c5 : cfg.end_ = true ∧ fps ≠ ("30".data) ∧
              fps ≠ ("29.97".data) ∧ fps ≠ ("24".data) ∧
              fps ≠ ("23.98".data) ∧ fps ≠ ("23.976".data)
            · rw [if_pos c5] at ha
              simp only [Prod.mk.injEq, Option.some.injEq] at ha
              have htc : bs.timecode ≠ [] := fun hx => c2 ⟨c5.1, hx⟩
              have hfp : fps ≠ [] := fun hx => c3 ⟨c5.1, hx⟩
              have hfr : ¬bs.frames = 0 := fun hx => c4 ⟨c5.1, hx⟩
              refine Or.inr (Or.inl ⟨c5.1, ?_, c1, ?_⟩)
              · unfold endCheck
                rw [if_neg htc, if_neg hfp, if_neg hfr, if_pos c5.2, ha.2]
              · rw [← ha.1]
                split_ifs <;> rfl
            · rw [if_neg c5] at ha
              by_cases c6 : cfg.end_ = true
              · rw [if_pos c6] at ha
                have htc : bs.timecode ≠ [] := fun hx => c2 ⟨c6, hx⟩
                have hfp : fps ≠ [] := fun hx => c3 ⟨c6, hx⟩
                have hfr : ¬bs.frames = 0 := fun hx => c4 ⟨c6, hx⟩
                have hsup : ¬(fps ≠ ("30".data) ∧ fps ≠ ("29.97".data) ∧
                    fps ≠ ("24".data) ∧ fps ≠ ("23.98".data) ∧
                    fps ≠ ("23.976".data)) := fun hx => c5 ⟨c6, hx⟩
                have hec : endCheck fps bs =
                    match NewTimecode bs.timecode (baseOf fps)
                      (dropOf fps) with
                    | .error e' => some e'
                    | .ok _ => none := by
                  unfold endCheck
                  rw [if_neg htc, if_neg hfp, if_neg hfr, if_neg hsup]
                cases hnt : NewTimecode bs.timecode (baseOf fps)
                    (dropOf fps) with
                | error e' =>
                  rw [hnt] at ha
                  simp only [Prod.mk.injEq, Option.some.injEq] at ha
                  refine Or.inr (Or.inl ⟨c6, ?_, c1, ?_⟩)
                  · rw [hec, hnt, ha.2]
                  · rw [← ha.1]
                    split_ifs <;> rfl
                | ok tc =>
                  rw [hnt] at ha
                  have hecn : endCheck fps bs = none := by rw [hec, hnt]
                  have hev : endVal fps bs =
                      (Timecode.Add tc (bs.frames - 1)).toStr := by
                    unfold endVal
                    rw [hnt]
                  rcases c4_tail cfg fps bs _ _ e ha with
                    ⟨hd, hfr0, _, _⟩ | ⟨hr, hwh, hd, hres⟩
                  · exact absurd hfr0 hfr
                  · refine Or.inr (Or.inr (Or.inr ⟨hr, hwh, c1,
                      fun _ => hecn, hd, ?_⟩))
                    rw [hres, hev]
                    split_ifs <;> rfl
              · rw [if_neg c6] at ha
                rcases c4_tail cfg fps bs _ _ e ha with
                  ⟨hd, hfr0, he, hres⟩ | ⟨hr, hwh, hd, hres⟩
                · refine Or.inr (Or.inr (Or.inl ⟨hd, hfr0, he, c1,
                    fun hx => absurd hx c6, ?_⟩))
                  rw [hres, if_neg c6]
                  split_ifs <;> rfl
                · refine Or.inr (Or.inr (Or.inr ⟨hr, hwh, c1,
                    fun hx => absurd hx c6, hd, ?_⟩))
                  rw [hres, if_neg c6]
                  split_ifs <;> rfl

/-- C4 witness: the amended characterization at the missing-fps report. -/
theorem c4_witness :
    ((({ start := true, end_ := true } : config)).start = true ∧
      (({ timecode := "00:00:00:00".data } : BlockState)).timecode = [] ∧
      GoErr.missingFps = .missingTimecode ∧
      ({ start := "00:00:00:00".data } : result) = {}) ∨
    ((({ start := true, end_ := true } : config)).end_ = true ∧
      endCheck [] { timecode := "00:00:00:00".data } =
        some .missingFps ∧
      ¬((({ start := true, end_ := true } : config)).start = true ∧
        (({ timecode := "00:00:00:00".data } : BlockState)).timecode
          = []) ∧
      ({ start := "00:00:00:00".data } : result) =
        { start := if (({ start := true, end_ := true } : config)).start
            then (({ timecode := "00:00:00:00".data } :
              BlockState)).timecode else [] }) ∨
    ((({ start := true, end_ := true } : config)).duration = true ∧
      (({ timecode := "00:00:00:00".data } : BlockState)).frames = 0 ∧
      GoErr.missingFps = .missingNbFrames ∧
      ¬((({ start := true, end_ := true } : config)).start = true ∧
        (({ timecode := "00:00:00:00".data } : BlockState)).timecode
          = []) ∧
      ((({ start := true, end_ := true } : config)).end_ = true →
        endCheck [] { timecode := "00:00:00:00".data } = none) ∧
      ({ start := "00:00:00:00".data } : result) =
        { start := if (({ start := true, end_ := true } : config)).start
            then (({ timecode := "00:00:00:00".data } :
              BlockState)).timecode else [],
          end_ := if (({ start := true, end_ := true } : config)).end_
            then endVal [] { timecode := "00:00:00:00".data } else [] }) ∨
    ((({ start := true, end_ := true } : config)).resolution = true ∧
      (((({ timecode := "00:00:00:00".data } : BlockState)).width = [] ∧
        GoErr.missingFps = .missingWidth) ∨
        ((({ timecode := "00:00:00:00".data } : BlockState)).width ≠ [] ∧
          (({ timecode := "00:00:00:00".data } : BlockState)).height
            = [] ∧
          GoErr.missingFps = .missingHeight)) ∧
      ¬((({ start := true, end_ := true } : config)).start = true ∧
        (({ timecode := "00:00:00:00".data } : BlockState)).timecode
          = []) ∧
      ((({ start := true, end_ := true } : config)).end_ = true →
        endCheck [] { timecode := "00:00:00:00".data } = none) ∧
      ¬((({ start := true, end_ := true } : config)).duration = true ∧
        (({ timecode := "00:00:00:00".data } : BlockState)).frames
          = 0) ∧
      ({ start := "00:00:00:00".data } : result) =
        { start := if (({ start := true, end_ := true } : config)).start
            then (({ timecode := "00:00:00:00".data } :
              BlockState)).timecode else [],
          end_ := if (({ start := true, end_ := true } : config)).end_
            then endVal [] { timecode := "00:00:00:00".data } else [],
          duration := if (({ start := true, end_ := true } :
              config)).duration
            then itoa (({ timecode := "00:00:00:00".data } :
              BlockState)).frames else [],
          fps := if (({ start := true, end_ := true } : config)).fps
            then [] else [] }) :=
  c4_first_error reportC4 { start := true, end_ := true } []
    { timecode := "00:00:00:00".data } { start := "00:00:00:00".data }
    .missingFps (by rfl) (by rfl)

end Movinfo
